import Mathlib

/-!
Verification of the cluster-directory core of `internal/exporter/exporter.go`
(a Prometheus metrics gateway for a fleet of Nutanix clusters).

The embedding models:
- decoded JSON values (`Json`), as produced by Go's `encoding/json` into
  `map[string]interface{}` / `[]interface{}` / `string` / `float64` / `bool` / `nil`;
- Go type assertions: the comma-ok form (`asObj?`, `asStr?`, `asArr?`) which
  fails softly, and the single-value form (`asObj!`) which panics on mismatch
  (modelled as the distinguished outcome `FetchErr.panic`);
- Go map semantics for `map[string]string` / `map[string]*Cluster`
  (`GoMap`, `insertGo`, `mapLookup`): assignment overwrites the entry for an
  existing key, lookup is by key;
- `FetchClusters` (exporter.go lines 195-346), split into its request
  selection (`requestFor`), the three parsing functions and the final
  map-building loop (`buildClusterData`);
- `SetupClusters` (lines 158-191) over an abstract handle constructor
  standing for `nutanix.NewCluster` plus collector registration;
- the directory refresh loop (lines 116-133) and the RWMutex-guarded
  generation swap (lines 111-113, 127-129, 141-143), the latter as a
  small-step transition system in which the writer's build steps touch only
  a private buffer and the mutex-protected map assignment is one atomic step.
-/

/-- A decoded JSON value as Go's `encoding/json` produces it.  A missing
object key and an explicit JSON `null` both become the nil interface value in
Go; both are represented by `Json.null` here (see `getField`). -/
inductive Json : Type where
  | null : Json
  | bool : Bool → Json
  | num : Int → Json
  | str : String → Json
  | arr : List Json → Json
  | obj : List (String × Json) → Json

/-- Go map indexing `m["k"]` on a decoded `map[string]interface{}`: the value
if the key is present, the nil interface (here `Json.null`) otherwise. -/
def getField (fields : List (String × Json)) (k : String) : Json :=
  match fields.find? (fun p => p.1 == k) with
  | some p => p.2
  | none => Json.null

/-- Comma-ok type assertion `x.(map[string]interface{})`. -/
def asObj? : Json → Option (List (String × Json))
  | Json.obj fs => some fs
  | _ => none

/-- Comma-ok type assertion `x.(string)`. -/
def asStr? : Json → Option String
  | Json.str s => some s
  | _ => none

/-- Comma-ok type assertion `x.([]interface{})`. -/
def asArr? : Json → Option (List Json)
  | Json.arr xs => some xs
  | _ => none

/-- Numeric read of a decoded JSON number. -/
def asNum? : Json → Option Int
  | Json.num n => some n
  | _ => none

/-- Go `x == nil` on an interface holding a decoded JSON value: true for a
missing key or an explicit null. -/
def Json.isNull : Json → Bool
  | Json.null => true
  | _ => false

/-- Outcomes of `FetchClusters` other than a mapping.  `transport` is an
error from `MakeRequest`/`MakeRequestWithParams`; `decode` an error from
`json.Decoder.Decode`; `badShape v` the explicit
`fmt.Errorf("unexpected response format for " + v)`; `panic` a Go runtime
panic raised by a failed single-value type assertion — a fault, not an
error return. -/
inductive FetchErr : Type where
  | transport : FetchErr
  | decode : FetchErr
  | badShape : String → FetchErr
  | panic : FetchErr
deriving DecidableEq

/-- A Go map, as an association list with at most one entry per key (every
map in the program is built from empty by `insertGo`).  List order is an
artifact of the embedding; Go map iteration order is unspecified. -/
abbrev GoMap (α : Type) : Type := List (String × α)

/-- Whether the map has an entry for key `k`. -/
def containsKey {α : Type} (m : GoMap α) (k : String) : Bool :=
  m.any (fun p => p.1 == k)

/-- Go map assignment `m[k] = v`: overwrite the entry for `k` if present,
otherwise add one. -/
def insertGo {α : Type} : GoMap α → String → α → GoMap α
  | [], k, v => [(k, v)]
  | p :: rest, k, v => if p.1 == k then (k, v) :: rest else p :: insertGo rest k v

/-- Go map lookup `m[k]` in its comma-ok form. -/
def mapLookup {α : Type} (m : GoMap α) (k : String) : Option α :=
  (m.find? (fun p => p.1 == k)).map Prod.snd

/-- One HTTP request to Prism Central, as issued through
`prismClient.API.MakeRequest` / `MakeRequestWithParams`. -/
structure Request : Type where
  method : String
  path : String
  payload : Option Json

/-- What the upstream interaction yields for one request, folding together
the transport and the JSON decode of the body: a transport error, a body
that fails `json.NewDecoder(resp.Body).Decode(&result)` into a
`map[string]interface{}`, or the decoded top-level object. -/
inductive UpstreamResult : Type where
  | transportError : UpstreamResult
  | decodeError : UpstreamResult
  | body : List (String × Json) → UpstreamResult

/-- The upstream world: a response for every possible request. -/
abbrev Upstream : Type := Request → UpstreamResult

/-- exporter.go lines 214-223: the v3 list query — one POST to
`/api/nutanix/v3/clusters/list` with payload
`{"kind": "cluster", "length": 100, "offset": 0}`. -/
def v3Request : Request :=
  { method := "POST", path := "/api/nutanix/v3/clusters/list",
    payload := some (Json.obj
      [("kind", Json.str "cluster"), ("length", Json.num 100), ("offset", Json.num 0)]) }

/-- exporter.go lines 209-211: the v4 list query. -/
def v4Request : Request :=
  { method := "GET", path := "/api/clustermgmt/v4.0/config/clusters", payload := none }

/-- exporter.go lines 204-206: the v4 beta-1 list query. -/
def v4b1Request : Request :=
  { method := "GET", path := "/api/clustermgmt/v4.0.b1/config/clusters", payload := none }

/-- exporter.go lines 233-252, one iteration of the v4 parsing loop.
Faithful to Go evaluation order, including the two single-value type
assertions that panic: `cluster.(map[string]interface{})` (line 234) and the
inner `clusterMap["network"].(map[string]interface{})` on line 239 (the
comma-ok there covers only the trailing `.(map[string]interface{})` applied
to `["externalAddress"]`), and `network["ipv4"].(map[string]interface{})` on
line 243 (comma-ok covers only `["value"].(string)`). -/
def parseV4Entry (cluster : Json) : Except FetchErr (Option (String × String)) :=
  match asObj? cluster with
  | none => Except.error FetchErr.panic
  | some clusterMap =>
    match asStr? (getField clusterMap "name") with
    | none => Except.ok none
    | some name =>
      if name == "Unnamed" then Except.ok none
      else
        match asObj? (getField clusterMap "network") with
        | none => Except.error FetchErr.panic
        | some networkField =>
          match asObj? (getField networkField "externalAddress") with
          | none => Except.ok none
          | some network =>
            if (getField network "ipv4").isNull then Except.ok none
            else
              match asObj? (getField network "ipv4") with
              | none => Except.error FetchErr.panic
              | some ipv4 =>
                match asStr? (getField ipv4 "value") with
                | none => Except.ok none
                | some ip => Except.ok (some (name, ip))

/-- The v4 parsing loop over `data`, front to back; a panic at any entry
aborts the whole parse, a skipped entry contributes nothing. -/
def parseV4List : List Json → Except FetchErr (List (String × String))
  | [] => Except.ok []
  | c :: rest =>
    match parseV4Entry c with
    | Except.error e => Except.error e
    | Except.ok none => parseV4List rest
    | Except.ok (some p) =>
      match parseV4List rest with
      | Except.error e => Except.error e
      | Except.ok tail => Except.ok (p :: tail)

/-- exporter.go lines 226-254: `parseV4Clusters`.  `result["data"]` must be a
`[]interface{}`, else the single aggregate error. -/
def parseV4Clusters (result : List (String × Json)) :
    Except FetchErr (List (String × String)) :=
  match asArr? (getField result "data") with
  | none => Except.error (FetchErr.badShape "v4")
  | some data => parseV4List data

/-- exporter.go line 257: `parseV4b1Clusters := parseV4Clusters`. -/
def parseV4b1Clusters : List (String × Json) → Except FetchErr (List (String × String)) :=
  parseV4Clusters

/-- exporter.go lines 267-294, one iteration of the v3 parsing loop.
`entity.(map[string]interface{})` (line 268) and the inner
`status["resources"].(map[string]interface{})` on line 280 are single-value
assertions and panic on mismatch; `spec`, `status`, the trailing
`["network"].(map[string]interface{})` and `external_ip` use comma-ok. -/
def parseV3Entry (entity : Json) : Except FetchErr (Option (String × String)) :=
  match asObj? entity with
  | none => Except.error FetchErr.panic
  | some cluster =>
    match asObj? (getField cluster "spec"), asObj? (getField cluster "status") with
    | some spec, some status =>
      (match asStr? (getField spec "name") with
      | none => Except.ok none
      | some name =>
        if name == "Unnamed" then Except.ok none
        else
          match asObj? (getField status "resources") with
          | none => Except.error FetchErr.panic
          | some resources =>
            match asObj? (getField resources "network") with
            | none => Except.ok none
            | some network =>
              match asStr? (getField network "external_ip") with
              | none => Except.ok none
              | some ip => Except.ok (some (name, ip)))
    | _, _ => Except.ok none

/-- The v3 parsing loop over `entities`, front to back. -/
def parseV3List : List Json → Except FetchErr (List (String × String))
  | [] => Except.ok []
  | c :: rest =>
    match parseV3Entry c with
    | Except.error e => Except.error e
    | Except.ok none => parseV3List rest
    | Except.ok (some p) =>
      match parseV3List rest with
      | Except.error e => Except.error e
      | Except.ok tail => Except.ok (p :: tail)

/-- exporter.go lines 260-296: `parseV3Clusters`.  `result["entities"]` must
be a `[]interface{}`, else the single aggregate error. -/
def parseV3Clusters (result : List (String × Json)) :
    Except FetchErr (List (String × String)) :=
  match asArr? (getField result "entities") with
  | none => Except.error (FetchErr.badShape "v3")
  | some entities => parseV3List entities

/-- exporter.go lines 303-312, request half: which request the configured
version issues.  `"v3"` and `"v4b1"` are matched literally; every other
value (including the default `"v4"`) issues the v4 request. -/
def requestFor (version : String) : Request :=
  if version == "v3" then v3Request
  else if version == "v4b1" then v4b1Request
  else v4Request

/-- exporter.go lines 303-312, parser half. -/
def parserFor (version : String) :
    List (String × Json) → Except FetchErr (List (String × String)) :=
  if version == "v3" then parseV3Clusters
  else if version == "v4b1" then parseV4b1Clusters
  else parseV4Clusters

/-- exporter.go lines 331-343, one iteration of the final loop: skip the
entry when a non-empty name filter `ClusterPrefix` is configured and the
name does not start with it, otherwise
`clusterData[name] = fmt.Sprintf("https://%s:9440", ip)`. -/
def surviveV (pfx : String) (p : String × String) : Option (String × String) :=
  if pfx != "" && !(p.1.startsWith pfx) then none
  else some (p.1, "https://" ++ p.2 ++ ":9440")

/-- One step of a build loop that either skips an item or writes one
key/value into the map under construction. -/
def stepIns {α β : Type} (f : α → Option (String × β)) (acc : GoMap β) (a : α) : GoMap β :=
  match f a with
  | none => acc
  | some p => insertGo acc p.1 p.2

/-- exporter.go lines 330-343: build `clusterData` from the parsed entries,
in list order, with the name filter applied. -/
def buildClusterData (pfx : String) (clusters : List (String × String)) : GoMap String :=
  clusters.foldl (stepIns (surviveV pfx)) []

/-- exporter.go lines 195-346: `FetchClusters`.  `pfx` is the package global
`ClusterPrefix`; `version` the `PCApiVersion` argument; `upstream` the
authenticated API client plus the central endpoint's behavior. -/
def fetchClusters (pfx version : String) (upstream : Upstream) :
    Except FetchErr (GoMap String) :=
  match upstream (requestFor version) with
  | UpstreamResult.transportError => Except.error FetchErr.transport
  | UpstreamResult.decodeError => Except.error FetchErr.decode
  | UpstreamResult.body result =>
    match parserFor version result with
    | Except.error e => Except.error e
    | Except.ok clusters => Except.ok (buildClusterData pfx clusters)

/-- exporter.go lines 158-191: `SetupClusters`, given the resolved
`clusterData`.  `construct` abstracts `nutanix.NewCluster` plus collector
registration for one cluster: `none` models the `cluster == nil` branch
(logged and skipped, line 167-170), `some h` a built handle. -/
def setupClusters {H : Type} (construct : String → String → Option H)
    (clusterData : GoMap String) : GoMap H :=
  clusterData.foldl (stepIns (fun p => (construct p.1 p.2).map (fun h => (p.1, h)))) []

/-- exporter.go lines 158-162 + 159: the whole of `SetupClusters` including
the `FetchClusters` call; an error from `FetchClusters` is propagated and no
map is built. -/
def setupClustersE {H : Type} (construct : String → String → Option H)
    (pfx version : String) (upstream : Upstream) : Except FetchErr (GoMap H) :=
  match fetchClusters pfx version upstream with
  | Except.error e => Except.error e
  | Except.ok clusterData => Except.ok (setupClusters construct clusterData)

/-- exporter.go lines 120-131, one tick of the directory refresh loop: on
error keep the current map (`continue`), on success swap in the new one. -/
def refreshTick {H : Type} (cur : GoMap H) (result : Except FetchErr (GoMap H)) : GoMap H :=
  match result with
  | Except.error _ => cur
  | Except.ok m => m

/-- exporter.go lines 116-133: the directory refresh loop after `n` ticks.
The closure captures `PCApiVersion` and `ClusterPrefix` once, at startup;
`upstreams t` is the upstream world at tick `t`. -/
def runDirectoryLoop {H : Type} (construct : String → String → Option H)
    (pfx version : String) (upstreams : Nat → Upstream) (init : GoMap H) : Nat → GoMap H
  | 0 => init
  | n + 1 =>
    refreshTick (runDirectoryLoop construct pfx version upstreams init n)
      (setupClustersE construct pfx version (upstreams n))

/-- exporter.go lines 55-58: `os.Getenv("PC_API_VERSION")` is `""` when the
variable is unset; the version defaults to `"v4"` exactly in that case. -/
def effectiveVersion (envVersion : String) : String :=
  if envVersion == "" then "v4" else envVersion

/-- State of the shared registry during one directory refresh.  `current` is
the RWMutex-guarded `ClustersMap`; `buffer` is the writer-private
`clustersMap` local of `SetupClusters`; `pending` the handles still to be
inserted into the buffer; `published` whether the locked swap of lines
127-129 has happened. -/
structure SwapState (H : Type) : Type where
  current : GoMap H
  buffer : GoMap H
  pending : List (String × H)
  published : Bool

/-- Writer steps during one refresh.  `insert` adds one built handle to the
writer-private buffer (no lock held, `current` untouched); `publish` is the
single `ClustersMap = newMap` assignment under `clustersMu.Lock()` — one
atomic step, because every reader accesses `ClustersMap` only under
`clustersMu.RLock()` (lines 141-143).  Readers observe `current` between any
two steps. -/
inductive SwapStep {H : Type} : SwapState H → SwapState H → Prop where
  | insert (cur buf : GoMap H) (k : String) (v : H) (rest : List (String × H)) :
      SwapStep (SwapState.mk cur buf ((k, v) :: rest) false)
               (SwapState.mk cur (insertGo buf k v) rest false)
  | publish (cur buf : GoMap H) :
      SwapStep (SwapState.mk cur buf [] false) (SwapState.mk buf buf [] true)

/-- Reflexive-transitive closure of `SwapStep`. -/
inductive SwapReaches {H : Type} : SwapState H → SwapState H → Prop where
  | refl (s : SwapState H) : SwapReaches s s
  | tail {s t u : SwapState H} : SwapReaches s t → SwapStep t u → SwapReaches s u

/-- Folding the remaining insertions into a buffer. -/
def buildCont {H : Type} (buf : GoMap H) (pending : List (String × H)) : GoMap H :=
  pending.foldl (fun m p => insertGo m p.1 p.2) buf

/-- The complete generation a list of handle insertions builds. -/
def goBuild {H : Type} (entries : List (String × H)) : GoMap H :=
  buildCont [] entries

/-- A well-formed v4 / v4b1 cluster entry with the given name and external
IPv4 value, shaped as the code's extraction path
`data[].name` / `data[].network.externalAddress.ipv4.value` expects. -/
def mkV4Entry (name ip : String) : Json :=
  Json.obj
    [("name", Json.str name),
     ("network", Json.obj
       [("externalAddress", Json.obj
         [("ipv4", Json.obj [("value", Json.str ip)])])])]

/-- A well-formed v3 cluster entity with the given name and external IP,
shaped as `entities[].spec.name` / `entities[].status.resources.network.external_ip`. -/
def mkV3Entry (name ip : String) : Json :=
  Json.obj
    [("spec", Json.obj [("name", Json.str name)]),
     ("status", Json.obj
       [("resources", Json.obj
         [("network", Json.obj [("external_ip", Json.str ip)])])])]

/-- A v4-shaped top-level response body holding the given entries. -/
def mkV4Body (entries : List (String × String)) : List (String × Json) :=
  [("data", Json.arr (entries.map (fun p => mkV4Entry p.1 p.2)))]

/-- A v3-shaped top-level response body holding the given entries. -/
def mkV3Body (entries : List (String × String)) : List (String × Json) :=
  [("entities", Json.arr (entries.map (fun p => mkV3Entry p.1 p.2)))]

/-- An upstream that answers requests for the given path with the given
decoded body and fails the transport otherwise. -/
def respondToPath (path : String) (b : List (String × Json)) : Upstream :=
  fun r => if r.path == path then UpstreamResult.body b else UpstreamResult.decodeError

/-- A v3 upstream server over a fleet of entities: it honors exactly the
POST list query, paging per the request's `length` and `offset` payload
fields. -/
def v3Server (fleet : List Json) : Upstream :=
  fun r =>
    if r.method == "POST" && r.path == "/api/nutanix/v3/clusters/list" then
      match r.payload with
      | some (Json.obj fields) =>
        (match asNum? (getField fields "length"), asNum? (getField fields "offset") with
        | some len, some off =>
          UpstreamResult.body
            [("entities", Json.arr ((fleet.drop off.toNat).take len.toNat))]
        | _, _ => UpstreamResult.decodeError)
      | _ => UpstreamResult.decodeError
    else UpstreamResult.transportError

/-- The latest surviving hit for key `k` that the skip-or-insert build loop
over `l` writes: later entries win. -/
def lastHit {α β : Type} (f : α → Option (String × β)) (k : String) : List α → Option β
  | [] => none
  | a :: l =>
    match lastHit f k l with
    | some v => some v
    | none =>
      match f a with
      | some p => if p.1 == k then some p.2 else none
      | none => none

/-! ### Basic lemmas about the Go map embedding -/

theorem mapLookup_nil {α : Type} (q : String) : mapLookup ([] : GoMap α) q = none := rfl

theorem mapLookup_cons {α : Type} (p : String × α) (m : GoMap α) (q : String) :
    mapLookup (p :: m) q = if p.1 == q then some p.2 else mapLookup m q := by
  by_cases h : p.1 == q
  · simp [mapLookup, List.find?, h]
  · simp only [Bool.not_eq_true] at h
    simp [mapLookup, List.find?, h]

theorem mapLookup_insertGo {α : Type} (m : GoMap α) (k : String) (v : α) (q : String) :
    mapLookup (insertGo m k v) q = if k == q then some v else mapLookup m q := by
  induction m with
  | nil => simp [insertGo, mapLookup_cons, mapLookup_nil]
  | cons p rest ih =>
    by_cases hpk : p.1 = k
    · simp only [insertGo, hpk, beq_self_eq_true, if_true]
      rw [mapLookup_cons, mapLookup_cons]
      by_cases hkq : k = q
      · simp [hkq]
      · have h1 : (k == q) = false := by simp [hkq]
        simp [h1, hpk]
    · have h1 : (p.1 == k) = false := by simp [hpk]
      have hstep : insertGo (p :: rest) k v = p :: insertGo rest k v := by
        simp [insertGo, h1]
      rw [hstep, mapLookup_cons, mapLookup_cons, ih]
      by_cases hpq : p.1 = q
      · have h2 : (k == q) = false := by
          simp only [beq_eq_false_iff_ne, ne_eq]
          intro hkq; exact hpk (hpq ▸ hkq.symm ▸ rfl)
        simp [hpq, h2]
      · have h2 : (p.1 == q) = false := by simp [hpq]
        simp [h2]

theorem containsKey_append {α : Type} (m1 m2 : GoMap α) (k : String) :
    containsKey (m1 ++ m2) k = (containsKey m1 k || containsKey m2 k) := by
  simp [containsKey, List.any_append]

theorem insertGo_fresh {α : Type} (m : GoMap α) (k : String) (v : α)
    (h : containsKey m k = false) : insertGo m k v = m ++ [(k, v)] := by
  induction m with
  | nil => rfl
  | cons p rest ih =>
    simp only [containsKey, List.any_cons, Bool.or_eq_false_iff] at h
    simp [insertGo, h.1, ih h.2]

theorem lookup_foldl_stepIns {α β : Type} (f : α → Option (String × β)) :
    ∀ (l : List α) (m0 : GoMap β) (k : String),
      mapLookup (l.foldl (stepIns f) m0) k =
        match lastHit f k l with
        | some v => some v
        | none => mapLookup m0 k := by
  intro l
  induction l with
  | nil => intro m0 k; rfl
  | cons a l ih =>
    intro m0 k
    simp only [List.foldl_cons, lastHit]
    rw [ih]
    cases hl : lastHit f k l with
    | some v => rfl
    | none =>
      simp only []
      cases hf : f a with
      | none => simp [stepIns, hf]
      | some p =>
        simp only [stepIns, hf, mapLookup_insertGo]
        by_cases hpk : p.1 = k
        · simp [hpk]
        · have h2 : (p.1 == k) = false := by simp [hpk]
          simp [h2]

theorem lastHit_none {α β : Type} (f : α → Option (String × β)) (k : String) :
    ∀ (l : List α), (∀ a ∈ l, ∀ p, f a = some p → (p.1 == k) = false) →
      lastHit f k l = none := by
  intro l
  induction l with
  | nil => intro _; rfl
  | cons a l ih =>
    intro h
    simp only [lastHit]
    rw [ih (fun b hb => h b (List.mem_cons_of_mem a hb))]
    cases hf : f a with
    | none => rfl
    | some p => simp [h a (List.mem_cons_self a l) p hf]

theorem foldl_stepIns_fresh {α β : Type} (f : α → Option (String × β)) (g : α → String × β) :
    ∀ (l : List α) (m0 : GoMap β),
      (∀ a ∈ l, f a = some (g a)) →
      (l.map (fun a => (g a).1)).Nodup →
      (∀ a ∈ l, containsKey m0 (g a).1 = false) →
      l.foldl (stepIns f) m0 = m0 ++ l.map g := by
  intro l
  induction l with
  | nil => intro m0 _ _ _; simp
  | cons a l ih =>
    intro m0 hf hnd hfresh
    simp only [List.map_cons, List.nodup_cons] at hnd
    simp only [List.foldl_cons, stepIns, hf a (List.mem_cons_self a l)]
    rw [insertGo_fresh _ _ _ (hfresh a (List.mem_cons_self a l))]
    rw [ih (m0 ++ [g a]) (fun b hb => hf b (List.mem_cons_of_mem a hb)) hnd.2 ?fresh]
    · simp
    case fresh =>
      intro b hb
      rw [containsKey_append, hfresh b (List.mem_cons_of_mem a hb)]
      simp only [containsKey, List.any_cons, List.any_nil, Bool.or_false, Bool.false_or]
      simp only [beq_eq_false_iff_ne, ne_eq]
      intro hab
      exact hnd.1 (hab ▸ List.mem_map_of_mem (fun x => (g x).1) hb)

/-! ### Lemmas about the parsing functions -/

theorem parseV4Entry_mk (n ip : String) (h : (n == "Unnamed") = false) :
    parseV4Entry (mkV4Entry n ip) = Except.ok (some (n, ip)) := by
  simp [parseV4Entry, mkV4Entry, getField, asObj?, asStr?, Json.isNull, h, List.find?]

theorem parseV3Entry_mk (n ip : String) (h : (n == "Unnamed") = false) :
    parseV3Entry (mkV3Entry n ip) = Except.ok (some (n, ip)) := by
  simp [parseV3Entry, mkV3Entry, getField, asObj?, asStr?, h, List.find?]

theorem parseV4List_map : ∀ (entries : List (String × String)),
    (∀ p ∈ entries, (p.1 == "Unnamed") = false) →
    parseV4List (entries.map (fun p => mkV4Entry p.1 p.2)) = Except.ok entries := by
  intro entries
  induction entries with
  | nil => intro _; rfl
  | cons p l ih =>
    intro h
    simp only [List.map_cons, parseV4List]
    rw [parseV4Entry_mk p.1 p.2 (h p (List.mem_cons_self p l)),
      ih (fun q hq => h q (List.mem_cons_of_mem p hq))]

theorem parseV3List_map : ∀ (entries : List (String × String)),
    (∀ p ∈ entries, (p.1 == "Unnamed") = false) →
    parseV3List (entries.map (fun p => mkV3Entry p.1 p.2)) = Except.ok entries := by
  intro entries
  induction entries with
  | nil => intro _; rfl
  | cons p l ih =>
    intro h
    simp only [List.map_cons, parseV3List]
    rw [parseV3Entry_mk p.1 p.2 (h p (List.mem_cons_self p l)),
      ih (fun q hq => h q (List.mem_cons_of_mem p hq))]

theorem parseV4List_skip (e : Json) (h : parseV4Entry e = Except.ok none) :
    ∀ (l1 l2 : List Json), parseV4List (l1 ++ e :: l2) = parseV4List (l1 ++ l2) := by
  intro l1
  induction l1 with
  | nil => intro l2; simp only [List.nil_append, parseV4List, h]
  | cons a l ih =>
    intro l2
    simp only [List.cons_append, parseV4List, List.append_eq]
    rw [ih l2]

theorem parseV3List_skip (e : Json) (h : parseV3Entry e = Except.ok none) :
    ∀ (l1 l2 : List Json), parseV3List (l1 ++ e :: l2) = parseV3List (l1 ++ l2) := by
  intro l1
  induction l1 with
  | nil => intro l2; simp only [List.nil_append, parseV3List, h]
  | cons a l ih =>
    intro l2
    simp only [List.cons_append, parseV3List, List.append_eq]
    rw [ih l2]

theorem parseV4Entry_some_name (c : Json) (p : String × String)
    (h : parseV4Entry c = Except.ok (some p)) : (p.1 == "Unnamed") = false := by
  unfold parseV4Entry at h
  repeat' split at h
  all_goals cases h
  all_goals simp_all

theorem parseV3Entry_some_name (c : Json) (p : String × String)
    (h : parseV3Entry c = Except.ok (some p)) : (p.1 == "Unnamed") = false := by
  unfold parseV3Entry at h
  repeat' split at h
  all_goals cases h
  all_goals simp_all

theorem parseV4List_names : ∀ (l : List Json) (pairs : List (String × String)),
    parseV4List l = Except.ok pairs → ∀ p ∈ pairs, (p.1 == "Unnamed") = false := by
  intro l
  induction l with
  | nil =>
    intro pairs h p hp
    injection h with h1
    subst h1
    cases hp
  | cons c rest ih =>
    intro pairs h p hp
    simp only [parseV4List] at h
    cases hpe : parseV4Entry c with
    | error e => simp [hpe] at h
    | ok o =>
      cases o with
      | none =>
        simp only [hpe] at h
        exact ih pairs h p hp
      | some q =>
        simp only [hpe] at h
        cases hrest : parseV4List rest with
        | error e => simp [hpe, hrest] at h
        | ok tail =>
          simp only [hrest] at h
          injection h with h1
          subst h1
          cases hp with
          | head => exact parseV4Entry_some_name c p hpe
          | tail _ hmem => exact ih tail hrest p hmem

theorem parseV3List_names : ∀ (l : List Json) (pairs : List (String × String)),
    parseV3List l = Except.ok pairs → ∀ p ∈ pairs, (p.1 == "Unnamed") = false := by
  intro l
  induction l with
  | nil =>
    intro pairs h p hp
    injection h with h1
    subst h1
    cases hp
  | cons c rest ih =>
    intro pairs h p hp
    simp only [parseV3List] at h
    cases hpe : parseV3Entry c with
    | error e => simp [hpe] at h
    | ok o =>
      cases o with
      | none =>
        simp only [hpe] at h
        exact ih pairs h p hp
      | some q =>
        simp only [hpe] at h
        cases hrest : parseV3List rest with
        | error e => simp [hpe, hrest] at h
        | ok tail =>
          simp only [hrest] at h
          injection h with h1
          subst h1
          cases hp with
          | head => exact parseV3Entry_some_name c p hpe
          | tail _ hmem => exact ih tail hrest p hmem

/-! ### Dispatch and resolver plumbing lemmas -/

theorem parserFor_v3 : parserFor "v3" = parseV3Clusters := rfl

theorem parserFor_v4 : parserFor "v4" = parseV4Clusters := rfl

theorem parserFor_v4b1 : parserFor "v4b1" = parseV4b1Clusters := rfl

theorem requestFor_v3 : requestFor "v3" = v3Request := rfl

theorem requestFor_v4 : requestFor "v4" = v4Request := rfl

theorem requestFor_v4b1 : requestFor "v4b1" = v4b1Request := rfl

theorem fetchClusters_parse_congr (pfx version : String) (u1 u2 : Upstream)
    (b1 b2 : List (String × Json))
    (h1 : u1 (requestFor version) = UpstreamResult.body b1)
    (h2 : u2 (requestFor version) = UpstreamResult.body b2)
    (hp : parserFor version b1 = parserFor version b2) :
    fetchClusters pfx version u1 = fetchClusters pfx version u2 := by
  unfold fetchClusters
  simp only [h1, h2, hp]

theorem mapLookup_buildClusterData (pfx : String) (clusters : List (String × String))
    (k : String) :
    mapLookup (buildClusterData pfx clusters) k =
      match lastHit (surviveV pfx) k clusters with
      | some v => some v
      | none => none := by
  unfold buildClusterData
  rw [lookup_foldl_stepIns]
  cases lastHit (surviveV pfx) k clusters <;> rfl

theorem mapLookup_setupClusters {H : Type} (construct : String → String → Option H)
    (clusterData : GoMap String) (k : String) :
    mapLookup (setupClusters construct clusterData) k =
      match lastHit (fun p => (construct p.1 p.2).map (fun h => (p.1, h))) k clusterData with
      | some v => some v
      | none => none := by
  unfold setupClusters
  rw [lookup_foldl_stepIns]
  cases lastHit (fun p => (construct p.1 p.2).map (fun h => (p.1, h))) k clusterData <;> rfl

theorem surviveV_empty (p : String × String) :
    surviveV "" p = some (p.1, "https://" ++ p.2 ++ ":9440") := rfl

theorem surviveV_key (pfx : String) (p q : String × String)
    (h : surviveV pfx p = some q) : q.1 = p.1 := by
  unfold surviveV at h
  split at h
  · cases h
  · injection h with h1
    subst h1
    rfl

/-! ### Further helper lemmas -/

theorem lastHit_unique_key {H : Type} (construct : String → String → Option H) :
    ∀ (data : GoMap String), (data.map Prod.fst).Nodup →
      ∀ p ∈ data,
        lastHit (fun q => (construct q.1 q.2).map (fun h => (q.1, h))) p.1 data =
          construct p.1 p.2 := by
  intro data
  induction data with
  | nil => intro _ p hp; cases hp
  | cons a l ih =>
    intro hnd p hp
    simp only [List.map_cons, List.nodup_cons] at hnd
    cases hp with
    | head =>
      simp only [lastHit]
      rw [lastHit_none _ _ l ?nohit]
      · cases hc : construct a.1 a.2 with
        | none => simp [hc]
        | some h => simp [hc]
      case nohit =>
        intro b hb q hq
        cases hcb : construct b.1 b.2 with
        | none => rw [hcb] at hq; cases hq
        | some hh =>
          rw [hcb] at hq
          injection hq with hq1
          subst hq1
          simp only [beq_eq_false_iff_ne, ne_eq]
          intro hbp
          exact hnd.1 (hbp ▸ List.mem_map_of_mem Prod.fst hb)
    | tail _ hmem =>
      simp only [lastHit]
      rw [ih hnd.2 p hmem]
      cases hc : construct p.1 p.2 with
      | some h => rfl
      | none =>
        simp only []
        cases hca : construct a.1 a.2 with
        | none => simp
        | some hh =>
          simp only [Option.map_some']
          have hne : (a.1 == p.1) = false := by
            simp only [beq_eq_false_iff_ne, ne_eq]
            intro hap
            exact hnd.1 (hap ▸ List.mem_map_of_mem Prod.fst hmem)
          simp [hne]

theorem swap_invariant {H : Type} (old : GoMap H) (entries : List (String × H)) :
    ∀ st : SwapState H,
      SwapReaches (SwapState.mk old [] entries false) st →
      (st.published = false →
        st.current = old ∧ buildCont st.buffer st.pending = goBuild entries)
      ∧ (st.published = true → st.current = goBuild entries) := by
  intro st h
  induction h with
  | refl => exact ⟨fun _ => ⟨rfl, rfl⟩, fun hpub => Bool.noConfusion hpub⟩
  | tail hr hstep ih =>
    cases hstep with
    | insert cur buf k v rest =>
      have h1 := ih.1 rfl
      refine ⟨fun _ => ⟨h1.1, ?_⟩, fun hpub => Bool.noConfusion hpub⟩
      have h2 := h1.2
      simpa [buildCont] using h2
    | publish cur buf =>
      have h1 := ih.1 rfl
      refine ⟨fun hfalse => Bool.noConfusion hfalse, fun _ => ?_⟩
      have h2 : buf = goBuild entries := by simpa [buildCont] using h1.2
      simpa using h2

/-! ### Claim theorems -/

/-- Claim C2: during a directory refresh, every state a concurrent reader can
observe holds either the complete old generation or the complete new
generation as the shared `ClustersMap`, never a mixture.  The writer builds
the new generation in a private buffer (`insert` steps, `current` untouched)
and replaces the shared map in one whole-map swap (`publish`, the
mutex-guarded assignment of exporter.go lines 127-129); no partial in-place
mutation of the shared map exists in the transition system, mirroring the
code, so every reachable `current` is one of the two complete maps. -/
theorem generation_swap_atomic (H : Type) (old : GoMap H) (entries : List (String × H))
    (st : SwapState H) (h : SwapReaches (SwapState.mk old [] entries false) st) :
    st.current = old ∨ st.current = goBuild entries := by
  have hinv := swap_invariant old entries st h
  cases hpub : st.published with
  | false => exact Or.inl (hinv.1 hpub).1
  | true => exact Or.inr (hinv.2 hpub)

/-- Witness for C2: after one build step of a refresh that will install
`{"b" ↦ 2}` over the generation `{"a" ↦ 1}`, the shared map is one of the
two complete generations. -/
theorem generation_swap_atomic_witness :
    (SwapState.mk [("a", 1)] (insertGo [] "b" 2) [] false).current = [("a", (1 : Nat))]
    ∨ (SwapState.mk [("a", 1)] (insertGo [] "b" 2) [] false).current = goBuild [("b", 2)] :=
  generation_swap_atomic Nat [("a", 1)] [("b", 2)]
    (SwapState.mk [("a", 1)] (insertGo [] "b" 2) [] false)
    (SwapReaches.tail (SwapReaches.refl _) (SwapStep.insert [("a", 1)] [] "b" 2 []))

/-- Claim C3 (code bug): transport errors, JSON decode errors and a
malformed top level (`data` / `entities` missing or not a list) do abort
resolution with a single error and no mapping; but a schema-shape mismatch
inside an entry that hits one of Go's unchecked single-value type
assertions — a list element that is not an object (line 234 / 268), or an
entry whose `network` (v4, line 239) / `resources` (v3, line 280) / non-null
`ipv4` (line 243) field is not an object — makes `FetchClusters` panic at
runtime instead of returning an error, contradicting the claim's "never
faults in a way other than returning an error". -/
theorem fetch_failure_modes_eval :
    fetchClusters "" "v4"
        (respondToPath "/api/clustermgmt/v4.0/config/clusters"
          [("data", Json.arr [Json.num 42])])
      = Except.error FetchErr.panic
    ∧ fetchClusters "" "v4"
        (respondToPath "/api/clustermgmt/v4.0/config/clusters"
          [("data", Json.arr [Json.obj [("name", Json.str "c1")]])])
      = Except.error FetchErr.panic
    ∧ fetchClusters "" "v4" (fun _ => UpstreamResult.transportError)
      = Except.error FetchErr.transport
    ∧ fetchClusters "" "v4" (fun _ => UpstreamResult.decodeError)
      = Except.error FetchErr.decode
    ∧ fetchClusters "" "v4"
        (respondToPath "/api/clustermgmt/v4.0/config/clusters" [("nodata", Json.null)])
      = Except.error (FetchErr.badShape "v4")
    ∧ fetchClusters "" "v3"
        (respondToPath "/api/nutanix/v3/clusters/list" [("nope", Json.null)])
      = Except.error (FetchErr.badShape "v3") :=
  ⟨rfl, rfl, rfl, rfl, rfl, rfl⟩

/-- Claim C4: a refresh tick whose `SetupClusters` rebuild fails leaves the
served generation exactly as it was (the loop `continue`s, exporter.go lines
123-126), every lookup still reaches it, and the next tick retries the
rebuild on the unchanged previous generation. -/
theorem refresh_failure_keeps_generation (H : Type) (construct : String → String → Option H)
    (pfx version : String) (upstreams : Nat → Upstream) (init : GoMap H) (n : Nat)
    (e : FetchErr)
    (hfail : setupClustersE construct pfx version (upstreams n) = Except.error e) :
    runDirectoryLoop construct pfx version upstreams init (n + 1)
      = runDirectoryLoop construct pfx version upstreams init n
    ∧ (∀ k, mapLookup (runDirectoryLoop construct pfx version upstreams init (n + 1)) k
        = mapLookup (runDirectoryLoop construct pfx version upstreams init n) k)
    ∧ runDirectoryLoop construct pfx version upstreams init (n + 2)
        = refreshTick (runDirectoryLoop construct pfx version upstreams init n)
            (setupClustersE construct pfx version (upstreams (n + 1))) := by
  have h1 : runDirectoryLoop construct pfx version upstreams init (n + 1)
      = runDirectoryLoop construct pfx version upstreams init n := by
    simp [runDirectoryLoop, hfail, refreshTick]
  refine ⟨h1, fun k => by rw [h1], ?_⟩
  show refreshTick (runDirectoryLoop construct pfx version upstreams init (n + 1)) _ = _
  rw [h1]

/-- Witness for C4: with an upstream that fails the transport at tick 0, the
generation after the tick is the initial one. -/
theorem refresh_failure_keeps_generation_witness :
    runDirectoryLoop (fun _ _ => none) "" "v4" (fun _ _ => UpstreamResult.transportError)
        [("a", "x")] 1
      = runDirectoryLoop (fun _ _ => none) "" "v4" (fun _ _ => UpstreamResult.transportError)
        [("a", "x")] 0 :=
  (refresh_failure_keeps_generation String (fun _ _ => none) "" "v4"
    (fun _ _ => UpstreamResult.transportError) [("a", "x")] 0 FetchErr.transport rfl).1

/-- Claim C5: during a generation build, each descriptor's presence in the
returned generation depends only on its own handle construction: the lookup
of a descriptor's name equals exactly its own `construct` outcome — `none`
(skipped, exporter.go lines 167-170) when that handle fails, its handle when
it succeeds — irrespective of any other descriptor's failure, so one failing
cluster never aborts its siblings.  Descriptor names are distinct because
`clusterData` is itself a Go map. -/
theorem setupClusters_isolates_failures (H : Type) (construct : String → String → Option H)
    (clusterData : GoMap String) (hnd : (clusterData.map Prod.fst).Nodup)
    (p : String × String) (hp : p ∈ clusterData) :
    mapLookup (setupClusters construct clusterData) p.1 = construct p.1 p.2 := by
  rw [mapLookup_setupClusters, lastHit_unique_key construct clusterData hnd p hp]
  cases construct p.1 p.2 <;> rfl

/-- Witness for C5: the handle for "bad" fails and is skipped while its
sibling "good" is still built into the same generation. -/
theorem setupClusters_isolates_failures_witness :
    mapLookup (setupClusters (fun n _ => if n == "bad" then none else some n)
        [("bad", "u1"), ("good", "u2")]) "good" = some "good"
    ∧ mapLookup (setupClusters (fun n _ => if n == "bad" then none else some n)
        [("bad", "u1"), ("good", "u2")]) "bad" = none := by
  constructor
  · have h := setupClusters_isolates_failures String
      (fun n _ => if n == "bad" then none else some n)
      [("bad", "u1"), ("good", "u2")] (by decide) ("good", "u2") (by decide)
    simpa using h
  · have h := setupClusters_isolates_failures String
      (fun n _ => if n == "bad" then none else some n)
      [("bad", "u1"), ("good", "u2")] (by decide) ("bad", "u1") (by decide)
    simpa using h

/-- Claim C6: the resolver dispatches among exactly the three schemas — the
selector `"v3"` issues the v3 POST and v3 parser, the beta selector `"v4b1"`
issues the v4-beta1 GET endpoint (not the v4 one: the two paths differ) and
the beta parser, and every other selector value, in particular the default
`"v4"` that an unset `PC_API_VERSION` becomes, issues the v4 GET and v4
parser; and the version is fixed at startup: every tick of the refresh loop
uses the same `effectiveVersion envVersion` captured by the goroutine
closure. -/
theorem version_dispatch_fixed :
    (∀ version : String,
        (requestFor version = v3Request ∧ parserFor version = parseV3Clusters)
      ∨ (requestFor version = v4b1Request ∧ parserFor version = parseV4b1Clusters)
      ∨ (requestFor version = v4Request ∧ parserFor version = parseV4Clusters))
    ∧ effectiveVersion "" = "v4"
    ∧ requestFor (effectiveVersion "") = v4Request
    ∧ requestFor "v3" = v3Request
    ∧ requestFor "v4b1" = v4b1Request
    ∧ (v4b1Request.path == v4Request.path) = false
    ∧ (∀ (H : Type) (construct : String → String → Option H) (pfx envVersion : String)
        (upstreams : Nat → Upstream) (init : GoMap H) (n : Nat),
        runDirectoryLoop construct pfx (effectiveVersion envVersion) upstreams init (n + 1)
          = refreshTick
              (runDirectoryLoop construct pfx (effectiveVersion envVersion) upstreams init n)
              (setupClustersE construct pfx (effectiveVersion envVersion) (upstreams n))) := by
  refine ⟨?_, rfl, rfl, rfl, rfl, by decide,
    fun H construct pfx envVersion upstreams init n => rfl⟩
  intro version
  cases h3 : (version == "v3") with
  | true =>
    left
    exact ⟨by simp [requestFor, h3], by simp [parserFor, h3]⟩
  | false =>
    cases h41 : (version == "v4b1") with
    | true =>
      right; left
      exact ⟨by simp [requestFor, h3, h41], by simp [parserFor, h3, h41]⟩
    | false =>
      right; right
      exact ⟨by simp [requestFor, h3, h41], by simp [parserFor, h3, h41]⟩

/-! ### Helpers for the remaining claims -/

theorem asObj?_obj (fs : List (String × Json)) : asObj? (Json.obj fs) = some fs := rfl

theorem asStr?_str (s : String) : asStr? (Json.str s) = some s := rfl

theorem asArr?_arr (xs : List Json) : asArr? (Json.arr xs) = some xs := rfl

theorem isNull_obj (fs : List (String × Json)) : (Json.obj fs).isNull = false := rfl

theorem fetchClusters_at_body (pfx version path : String) (b : List (String × Json))
    (clusters : List (String × String))
    (hresp : respondToPath path b (requestFor version) = UpstreamResult.body b)
    (hparse : parserFor version b = Except.ok clusters) :
    fetchClusters pfx version (respondToPath path b)
      = Except.ok (buildClusterData pfx clusters) := by
  unfold fetchClusters
  simp only [hresp, hparse]

theorem fetch_entry_skip_v4 (pfx : String) (e : Json) (l1 l2 : List Json)
    (h : parseV4Entry e = Except.ok none) :
    fetchClusters pfx "v4" (respondToPath "/api/clustermgmt/v4.0/config/clusters"
        [("data", Json.arr (l1 ++ e :: l2))])
      = fetchClusters pfx "v4" (respondToPath "/api/clustermgmt/v4.0/config/clusters"
        [("data", Json.arr (l1 ++ l2))]) := by
  apply fetchClusters_parse_congr pfx "v4" _ _ _ _ rfl rfl
  show parseV4List (l1 ++ e :: l2) = parseV4List (l1 ++ l2)
  exact parseV4List_skip e h l1 l2

theorem fetch_entry_skip_v4b1 (pfx : String) (e : Json) (l1 l2 : List Json)
    (h : parseV4Entry e = Except.ok none) :
    fetchClusters pfx "v4b1" (respondToPath "/api/clustermgmt/v4.0.b1/config/clusters"
        [("data", Json.arr (l1 ++ e :: l2))])
      = fetchClusters pfx "v4b1" (respondToPath "/api/clustermgmt/v4.0.b1/config/clusters"
        [("data", Json.arr (l1 ++ l2))]) := by
  apply fetchClusters_parse_congr pfx "v4b1" _ _ _ _ rfl rfl
  show parseV4List (l1 ++ e :: l2) = parseV4List (l1 ++ l2)
  exact parseV4List_skip e h l1 l2

theorem fetch_entry_skip_v3 (pfx : String) (e : Json) (l1 l2 : List Json)
    (h : parseV3Entry e = Except.ok none) :
    fetchClusters pfx "v3" (respondToPath "/api/nutanix/v3/clusters/list"
        [("entities", Json.arr (l1 ++ e :: l2))])
      = fetchClusters pfx "v3" (respondToPath "/api/nutanix/v3/clusters/list"
        [("entities", Json.arr (l1 ++ l2))]) := by
  apply fetchClusters_parse_congr pfx "v3" _ _ _ _ rfl rfl
  show parseV3List (l1 ++ e :: l2) = parseV3List (l1 ++ l2)
  exact parseV3List_skip e h l1 l2

theorem parseV4Entry_unnamed (fs : List (String × Json))
    (h : getField fs "name" = Json.str "Unnamed") :
    parseV4Entry (Json.obj fs) = Except.ok none := by
  simp [parseV4Entry, asObj?, asStr?, h]

theorem parseV3Entry_unnamed (fs sp : List (String × Json))
    (hspec : getField fs "spec" = Json.obj sp)
    (hname : getField sp "name" = Json.str "Unnamed") :
    parseV3Entry (Json.obj fs) = Except.ok none := by
  unfold parseV3Entry
  simp only [asObj?_obj, hspec]
  cases hst : asObj? (getField fs "status") with
  | none => rfl
  | some st => simp [hname, asStr?_str]

theorem parseV4Entry_noip (fs no ea : List (String × Json)) (n : String)
    (hname : getField fs "name" = Json.str n) (hn : (n == "Unnamed") = false)
    (hnet : getField fs "network" = Json.obj no)
    (hext : getField no "externalAddress" = Json.obj ea)
    (hip : (getField ea "ipv4").isNull = true ∨
      ∃ iv, getField ea "ipv4" = Json.obj iv ∧ asStr? (getField iv "value") = none) :
    parseV4Entry (Json.obj fs) = Except.ok none := by
  rcases hip with hnull | ⟨iv, hiv, hval⟩
  · simp [parseV4Entry, asObj?_obj, asStr?_str, hname, hn, hnet, hext, hnull]
  · simp [parseV4Entry, asObj?_obj, asStr?_str, hname, hn, hnet, hext, hiv, hval, isNull_obj]

theorem parseV3Entry_noip (fs sp st rs nw : List (String × Json)) (n : String)
    (hspec : getField fs "spec" = Json.obj sp)
    (hstat : getField fs "status" = Json.obj st)
    (hname : getField sp "name" = Json.str n) (hn : (n == "Unnamed") = false)
    (hres : getField st "resources" = Json.obj rs)
    (hnw : getField rs "network" = Json.obj nw)
    (hip : asStr? (getField nw "external_ip") = none) :
    parseV3Entry (Json.obj fs) = Except.ok none := by
  simp [parseV3Entry, asObj?_obj, asStr?_str, hspec, hstat, hname, hn, hres, hnw, hip]

theorem parserFor_names (version : String) (b : List (String × Json))
    (pairs : List (String × String)) (h : parserFor version b = Except.ok pairs) :
    ∀ p ∈ pairs, (p.1 == "Unnamed") = false := by
  cases h3 : (version == "v3") with
  | true =>
    simp only [parserFor, h3, if_true] at h
    unfold parseV3Clusters at h
    cases ha : asArr? (getField b "entities") with
    | none => simp [ha] at h
    | some entities =>
      rw [ha] at h
      exact parseV3List_names entities pairs h
  | false =>
    cases h41 : (version == "v4b1") with
    | true =>
      simp only [parserFor, h3, h41, if_true, Bool.false_eq_true, if_false] at h
      unfold parseV4b1Clusters parseV4Clusters at h
      cases ha : asArr? (getField b "data") with
      | none => simp [ha] at h
      | some data =>
        rw [ha] at h
        exact parseV4List_names data pairs h
    | false =>
      simp only [parserFor, h3, h41, Bool.false_eq_true, if_false] at h
      unfold parseV4Clusters at h
      cases ha : asArr? (getField b "data") with
      | none => simp [ha] at h
      | some data =>
        rw [ha] at h
        exact parseV4List_names data pairs h

theorem buildClusterData_fresh (entries : List (String × String))
    (hnd : (entries.map Prod.fst).Nodup) :
    buildClusterData "" entries
      = entries.map (fun p => (p.1, "https://" ++ p.2 ++ ":9440")) := by
  unfold buildClusterData
  rw [foldl_stepIns_fresh (surviveV "") (fun p => (p.1, "https://" ++ p.2 ++ ":9440"))
    entries [] (fun a _ => rfl) hnd (fun a _ => rfl)]
  simp

theorem lastHit_surviveV_empty (n : String) :
    ∀ l : List (String × String),
      lastHit (surviveV "") n l
        = (l.reverse.find? (fun p => p.1 == n)).map
            (fun p => "https://" ++ p.2 ++ ":9440") := by
  intro l
  induction l with
  | nil => rfl
  | cons a l ih =>
    simp only [lastHit, List.reverse_cons, surviveV_empty]
    rw [List.find?_append, ih]
    cases hfind : l.reverse.find? (fun p => p.1 == n) with
    | some q => simp
    | none =>
      cases han : (a.1 == n) with
      | true => simp [List.find?, han]
      | false => simp [List.find?, han]

/-- Claim C1: for each schema selector, a well-formed fixture response (the
code's expected extraction path for every entry, distinct names, no
"Unnamed", no name filter configured) resolves to exactly the mapping from
each entry's name to `https://{ip}:9440`, where v3 reads
`entities[].spec.name` / `entities[].status.resources.network.external_ip`
and v4 / v4b1 read `data[].name` / `data[].network.externalAddress.ipv4.value`
(the fixture shapes `mkV3Entry` / `mkV4Entry` are exactly those paths). -/
theorem resolver_exact_mapping (entries : List (String × String))
    (hU : ∀ p ∈ entries, p.1 ≠ "Unnamed")
    (hnd : (entries.map Prod.fst).Nodup) :
    fetchClusters "" "v3" (respondToPath "/api/nutanix/v3/clusters/list"
        (mkV3Body entries))
      = Except.ok (entries.map (fun p => (p.1, "https://" ++ p.2 ++ ":9440")))
    ∧ fetchClusters "" "v4" (respondToPath "/api/clustermgmt/v4.0/config/clusters"
        (mkV4Body entries))
      = Except.ok (entries.map (fun p => (p.1, "https://" ++ p.2 ++ ":9440")))
    ∧ fetchClusters "" "v4b1" (respondToPath "/api/clustermgmt/v4.0.b1/config/clusters"
        (mkV4Body entries))
      = Except.ok (entries.map (fun p => (p.1, "https://" ++ p.2 ++ ":9440"))) := by
  have hU' : ∀ p ∈ entries, (p.1 == "Unnamed") = false := by
    intro p hp
    simpa using hU p hp
  have hbuild := buildClusterData_fresh entries hnd
  have hparse3 : parserFor "v3" (mkV3Body entries) = Except.ok entries := by
    rw [parserFor_v3]
    show parseV3List (entries.map (fun p => mkV3Entry p.1 p.2)) = Except.ok entries
    exact parseV3List_map entries hU'
  have hparse4 : parserFor "v4" (mkV4Body entries) = Except.ok entries := by
    rw [parserFor_v4]
    show parseV4List (entries.map (fun p => mkV4Entry p.1 p.2)) = Except.ok entries
    exact parseV4List_map entries hU'
  have hparse41 : parserFor "v4b1" (mkV4Body entries) = Except.ok entries := by
    rw [parserFor_v4b1]
    show parseV4List (entries.map (fun p => mkV4Entry p.1 p.2)) = Except.ok entries
    exact parseV4List_map entries hU'
  refine ⟨?_, ?_, ?_⟩
  · rw [fetchClusters_at_body "" "v3" "/api/nutanix/v3/clusters/list"
      (mkV3Body entries) entries rfl hparse3, hbuild]
  · rw [fetchClusters_at_body "" "v4" "/api/clustermgmt/v4.0/config/clusters"
      (mkV4Body entries) entries rfl hparse4, hbuild]
  · rw [fetchClusters_at_body "" "v4b1" "/api/clustermgmt/v4.0.b1/config/clusters"
      (mkV4Body entries) entries rfl hparse41, hbuild]

/-- Witness for C1: a concrete two-cluster fixture under the v4 schema. -/
theorem resolver_exact_mapping_witness :
    fetchClusters "" "v4" (respondToPath "/api/clustermgmt/v4.0/config/clusters"
        (mkV4Body [("alpha", "10.0.0.1"), ("beta", "10.0.0.2")]))
      = Except.ok [("alpha", "https://10.0.0.1:9440"), ("beta", "https://10.0.0.2:9440")] :=
  (resolver_exact_mapping [("alpha", "10.0.0.1"), ("beta", "10.0.0.2")]
    (by decide) (by decide)).2.1

/-- Claim C7: under every schema selector, no key "Unnamed" ever appears in
a successful resolver output; and under each of the three schemas, removing
an "Unnamed" entry from the upstream response leaves the resolver result
unchanged — the entry is excluded, contributes nothing, and causes no
error. -/
theorem unnamed_excluded (pfx version : String) :
    (∀ (upstream : Upstream) (m : GoMap String),
        fetchClusters pfx version upstream = Except.ok m → mapLookup m "Unnamed" = none)
    ∧ (∀ (fs : List (String × Json)) (l1 l2 : List Json),
        getField fs "name" = Json.str "Unnamed" →
        fetchClusters pfx "v4" (respondToPath "/api/clustermgmt/v4.0/config/clusters"
            [("data", Json.arr (l1 ++ Json.obj fs :: l2))])
          = fetchClusters pfx "v4" (respondToPath "/api/clustermgmt/v4.0/config/clusters"
            [("data", Json.arr (l1 ++ l2))]))
    ∧ (∀ (fs : List (String × Json)) (l1 l2 : List Json),
        getField fs "name" = Json.str "Unnamed" →
        fetchClusters pfx "v4b1" (respondToPath "/api/clustermgmt/v4.0.b1/config/clusters"
            [("data", Json.arr (l1 ++ Json.obj fs :: l2))])
          = fetchClusters pfx "v4b1" (respondToPath "/api/clustermgmt/v4.0.b1/config/clusters"
            [("data", Json.arr (l1 ++ l2))]))
    ∧ (∀ (fs sp : List (String × Json)) (l1 l2 : List Json),
        getField fs "spec" = Json.obj sp →
        getField sp "name" = Json.str "Unnamed" →
        fetchClusters pfx "v3" (respondToPath "/api/nutanix/v3/clusters/list"
            [("entities", Json.arr (l1 ++ Json.obj fs :: l2))])
          = fetchClusters pfx "v3" (respondToPath "/api/nutanix/v3/clusters/list"
            [("entities", Json.arr (l1 ++ l2))])) := by
  refine ⟨?_, ?_, ?_, ?_⟩
  · intro upstream m h
    unfold fetchClusters at h
    cases hup : upstream (requestFor version) with
    | transportError => simp [hup] at h
    | decodeError => simp [hup] at h
    | body result =>
      simp only [hup] at h
      cases hp : parserFor version result with
      | error e => simp [hp] at h
      | ok clusters =>
        simp only [hp] at h
        injection h with h1
        subst h1
        rw [mapLookup_buildClusterData, lastHit_none (surviveV pfx) "Unnamed" clusters ?nohit]
        case nohit =>
          intro a ha q hq
          rw [surviveV_key pfx a q hq]
          exact parserFor_names version result clusters hp a ha
  · intro fs l1 l2 hname
    exact fetch_entry_skip_v4 pfx (Json.obj fs) l1 l2 (parseV4Entry_unnamed fs hname)
  · intro fs l1 l2 hname
    exact fetch_entry_skip_v4b1 pfx (Json.obj fs) l1 l2 (parseV4Entry_unnamed fs hname)
  · intro fs sp l1 l2 hspec hname
    exact fetch_entry_skip_v3 pfx (Json.obj fs) l1 l2
      (parseV3Entry_unnamed fs sp hspec hname)

/-- Witness for C7: dropping a concrete "Unnamed" v4 entry does not change
the resolver result. -/
theorem unnamed_excluded_witness :
    fetchClusters "" "v4" (respondToPath "/api/clustermgmt/v4.0/config/clusters"
        [("data", Json.arr ([] ++ Json.obj [("name", Json.str "Unnamed")]
          :: [mkV4Entry "a" "1.1.1.1"]))])
      = fetchClusters "" "v4" (respondToPath "/api/clustermgmt/v4.0/config/clusters"
        [("data", Json.arr ([] ++ [mkV4Entry "a" "1.1.1.1"]))]) :=
  (unnamed_excluded "" "v4").2.1 [("name", Json.str "Unnamed")] []
    [mkV4Entry "a" "1.1.1.1"] rfl

/-- Claim C8: under each of the three schemas, an entry whose ip field is
missing or not a string — v4 / v4b1: `...ipv4.value` missing or non-string,
or `ipv4` itself null/missing; v3: `...network.external_ip` missing or
non-string — is excluded from the resolver output without an error: removing
it from the upstream response leaves the resolver result unchanged. -/
theorem missing_ip_excluded (pfx : String) :
    (∀ (fs no ea : List (String × Json)) (n : String) (l1 l2 : List Json),
        getField fs "name" = Json.str n → (n == "Unnamed") = false →
        getField fs "network" = Json.obj no →
        getField no "externalAddress" = Json.obj ea →
        ((getField ea "ipv4").isNull = true ∨
          ∃ iv, getField ea "ipv4" = Json.obj iv ∧ asStr? (getField iv "value") = none) →
        fetchClusters pfx "v4" (respondToPath "/api/clustermgmt/v4.0/config/clusters"
            [("data", Json.arr (l1 ++ Json.obj fs :: l2))])
          = fetchClusters pfx "v4" (respondToPath "/api/clustermgmt/v4.0/config/clusters"
            [("data", Json.arr (l1 ++ l2))]))
    ∧ (∀ (fs no ea : List (String × Json)) (n : String) (l1 l2 : List Json),
        getField fs "name" = Json.str n → (n == "Unnamed") = false →
        getField fs "network" = Json.obj no →
        getField no "externalAddress" = Json.obj ea →
        ((getField ea "ipv4").isNull = true ∨
          ∃ iv, getField ea "ipv4" = Json.obj iv ∧ asStr? (getField iv "value") = none) →
        fetchClusters pfx "v4b1" (respondToPath "/api/clustermgmt/v4.0.b1/config/clusters"
            [("data", Json.arr (l1 ++ Json.obj fs :: l2))])
          = fetchClusters pfx "v4b1" (respondToPath "/api/clustermgmt/v4.0.b1/config/clusters"
            [("data", Json.arr (l1 ++ l2))]))
    ∧ (∀ (fs sp st rs nw : List (String × Json)) (n : String) (l1 l2 : List Json),
        getField fs "spec" = Json.obj sp → getField fs "status" = Json.obj st →
        getField sp "name" = Json.str n → (n == "Unnamed") = false →
        getField st "resources" = Json.obj rs → getField rs "network" = Json.obj nw →
        asStr? (getField nw "external_ip") = none →
        fetchClusters pfx "v3" (respondToPath "/api/nutanix/v3/clusters/list"
            [("entities", Json.arr (l1 ++ Json.obj fs :: l2))])
          = fetchClusters pfx "v3" (respondToPath "/api/nutanix/v3/clusters/list"
            [("entities", Json.arr (l1 ++ l2))])) := by
  refine ⟨?_, ?_, ?_⟩
  · intro fs no ea n l1 l2 hname hn hnet hext hip
    exact fetch_entry_skip_v4 pfx (Json.obj fs) l1 l2
      (parseV4Entry_noip fs no ea n hname hn hnet hext hip)
  · intro fs no ea n l1 l2 hname hn hnet hext hip
    exact fetch_entry_skip_v4b1 pfx (Json.obj fs) l1 l2
      (parseV4Entry_noip fs no ea n hname hn hnet hext hip)
  · intro fs sp st rs nw n l1 l2 hspec hstat hname hn hres hnw hip
    exact fetch_entry_skip_v3 pfx (Json.obj fs) l1 l2
      (parseV3Entry_noip fs sp st rs nw n hspec hstat hname hn hres hnw hip)

/-- Witness for C8: dropping a concrete v4 entry whose `ipv4` object has no
`value` field does not change the resolver result. -/
theorem missing_ip_excluded_witness :
    fetchClusters "" "v4" (respondToPath "/api/clustermgmt/v4.0/config/clusters"
        [("data", Json.arr ([] ++ Json.obj [("name", Json.str "x"),
            ("network", Json.obj [("externalAddress",
              Json.obj [("ipv4", Json.obj [])])])]
          :: [mkV4Entry "a" "1.1.1.1"]))])
      = fetchClusters "" "v4" (respondToPath "/api/clustermgmt/v4.0/config/clusters"
        [("data", Json.arr ([] ++ [mkV4Entry "a" "1.1.1.1"]))]) :=
  (missing_ip_excluded "").1
    [("name", Json.str "x"),
     ("network", Json.obj [("externalAddress", Json.obj [("ipv4", Json.obj [])])])]
    [("externalAddress", Json.obj [("ipv4", Json.obj [])])]
    [("ipv4", Json.obj [])] "x" [] [mkV4Entry "a" "1.1.1.1"]
    rfl (by decide) rfl rfl (Or.inr ⟨[], rfl, rfl⟩)

/-- Claim C9: v3 resolution issues exactly the single POST list query with
fixed page size 100 and offset 0 — the result depends on the upstream only
through its response to that one request (no pagination loop) — so against a
paging server the output over any fleet equals the output over just the
fleet's first 100 entities. -/
theorem v3_single_page (pfx : String) :
    requestFor "v3" = Request.mk "POST" "/api/nutanix/v3/clusters/list"
        (some (Json.obj [("kind", Json.str "cluster"), ("length", Json.num 100),
          ("offset", Json.num 0)]))
    ∧ (∀ u1 u2 : Upstream, u1 (requestFor "v3") = u2 (requestFor "v3") →
        fetchClusters pfx "v3" u1 = fetchClusters pfx "v3" u2)
    ∧ (∀ fleet : List Json,
        fetchClusters pfx "v3" (v3Server fleet)
          = fetchClusters pfx "v3" (v3Server (fleet.take 100))) := by
  refine ⟨rfl, ?_, ?_⟩
  · intro u1 u2 h
    unfold fetchClusters
    rw [h]
  · intro fleet
    have h1 : v3Server fleet (requestFor "v3")
        = UpstreamResult.body [("entities", Json.arr (fleet.take 100))] := rfl
    have h2 : v3Server (fleet.take 100) (requestFor "v3")
        = UpstreamResult.body [("entities", Json.arr (fleet.take 100))] := by
      show UpstreamResult.body [("entities", Json.arr ((fleet.take 100).take 100))] = _
      rw [List.take_take]
      simp
    unfold fetchClusters
    rw [h1, h2]

/-- Witness for C9: a concrete fleet, resolved against the paging server,
yields the same result as its 100-entry truncation. -/
theorem v3_single_page_witness :
    fetchClusters "" "v3" (v3Server [mkV3Entry "a" "1.1.1.1"])
      = fetchClusters "" "v3" (v3Server ([mkV3Entry "a" "1.1.1.1"].take 100)) :=
  (v3_single_page "").2.2 [mkV3Entry "a" "1.1.1.1"]

/-- Claim C10: with no name filter, a well-formed v4 response resolves
successfully and each name maps to the endpoint of the *last* upstream
entry bearing that name (the Go map assignment at exporter.go:341 silently
overwrites earlier duplicates; no error results). -/
theorem duplicate_names_last_wins (entries : List (String × String))
    (hU : ∀ p ∈ entries, p.1 ≠ "Unnamed") :
    ∃ m, fetchClusters "" "v4" (respondToPath "/api/clustermgmt/v4.0/config/clusters"
        (mkV4Body entries)) = Except.ok m
    ∧ ∀ n, mapLookup m n
        = (entries.reverse.find? (fun p => p.1 == n)).map
            (fun p => "https://" ++ p.2 ++ ":9440") := by
  have hU' : ∀ p ∈ entries, (p.1 == "Unnamed") = false := by
    intro p hp
    simpa using hU p hp
  have hparse4 : parserFor "v4" (mkV4Body entries) = Except.ok entries := by
    rw [parserFor_v4]
    show parseV4List (entries.map (fun p => mkV4Entry p.1 p.2)) = Except.ok entries
    exact parseV4List_map entries hU'
  refine ⟨buildClusterData "" entries,
    fetchClusters_at_body "" "v4" "/api/clustermgmt/v4.0/config/clusters"
      (mkV4Body entries) entries rfl hparse4, ?_⟩
  intro n
  rw [mapLookup_buildClusterData, lastHit_surviveV_empty]
  cases entries.reverse.find? (fun p => p.1 == n) <;> rfl

/-- Witness for C10: two entries named "a"; the later one (ip 2.2.2.2)
determines the endpoint. -/
theorem duplicate_names_last_wins_witness :
    ∃ m, fetchClusters "" "v4" (respondToPath "/api/clustermgmt/v4.0/config/clusters"
        (mkV4Body [("a", "1.1.1.1"), ("a", "2.2.2.2")])) = Except.ok m
    ∧ ∀ n, mapLookup m n
        = (([("a", "1.1.1.1"), ("a", "2.2.2.2")] :
              List (String × String)).reverse.find? (fun p => p.1 == n)).map
            (fun p => "https://" ++ p.2 ++ ":9440") :=
  duplicate_names_last_wins [("a", "1.1.1.1"), ("a", "2.2.2.2")] (by decide)
